import Mathlib

/-!
# Credit ledger and balance-mutation engine: a shallow embedding

This file embeds the credit subsystem of the repository:

* the persistent tables `credit_balances`, `credit_pricing`, `credit_ledger`
  and `credit_grants` (migration `001_initial_schema.sql`), modelled as a
  `DBState` of association lists / append-only lists;
* the PL/pgSQL functions `deduct_credits_for_article`
  (migration `005_update_deduct_credits_function.sql`) and `grant_credits`
  (migration `001_initial_schema.sql`);
* the TypeScript service layer (`services/creditService/index.ts`) and the
  manager layer (`managers/articleManager/index.ts`).

Timestamps and generated UUIDs are modelled by one monotone `Nat` counter
(`DBState.nextId`): each inserted ledger/grant row receives the current
counter value as both its `id` and its `created_at`, so creation-time order
coincides with id order, matching the serialized transaction history.

A PostgreSQL function that returns a result row commits its transaction;
a raised exception (e.g. a violated `CHECK` constraint) aborts the whole
transaction, leaving the database unchanged.  The former is modelled by
returning `(result, newState)`, the latter by `Except.error` (the caller
keeps the pre-call state).
-/

namespace Steakhouse

abbrev OrgId := String
abbrev UserId := String

/-- The `format(...)`ed error texts produced by the SQL functions and the
`throw new Error(...)` messages of the TypeScript layer, with the data they
interpolate. -/
inductive ErrMsg where
  /-- SQL: `Invalid credits_required: %s. Must be a positive integer.` -/
  | invalidCredits (given : Option Int)
  /-- SQL: `Failed to initialize credit balance` -/
  | initFailed
  /-- SQL: `Insufficient credits. Required: %s, Available: %s` -/
  | insufficient (required : Int) (available : Int)
  /-- TS manager: `creditsRequired must be a positive integer` -/
  | creditsRequiredNotPositive
  /-- TS manager: `Credits amount must be greater than 0` -/
  | creditsAmountNotPositive
  /-- TS manager: `No pricing found for action_type=%s, platform=%s` -/
  | pricingNotFound (actionType : String) (platform : String)
  /-- TS manager: `Page must be greater than 0` -/
  | pageOutOfRange
  /-- TS manager: `Page size must be between 1 and 100` -/
  | pageSizeOutOfRange
  /-- TS manager fallback: `Failed to deduct credits` -/
  | failedToDeduct
  /-- TS manager fallback: `Failed to grant credits` -/
  | failedToGrant
  /-- TS service: `Failed to ... credits: %s` when the rpc itself errors
  (e.g. the SQL transaction aborted on a `CHECK` violation) -/
  | sqlAborted
  deriving Repr, DecidableEq

/-- Metadata stored in a `credit_ledger` row: either the caller-supplied
JSONB object passed through `p_metadata`, or the object built by
`grant_credits` via `jsonb_build_object('reason', p_reason, 'grant_id', ...)`. -/
inductive LedgerMeta where
  | client (kv : List (String × String))
  | grantInfo (reason : Option String) (grant_id : Option Nat)
  deriving Repr, DecidableEq

/-- A row of the append-only `credit_ledger` table. -/
structure LedgerEntry where
  id : Nat
  organization_id : OrgId
  user_id : Option UserId
  article_id : Option String
  action_type : String
  platform : Option String
  credits_delta : Int
  balance_after : Int
  metadata : LedgerMeta
  created_at : Nat
  deriving Repr, DecidableEq

/-- A row of the append-only `credit_grants` table. -/
structure CreditGrantRow where
  id : Nat
  organization_id : OrgId
  granted_by_user_id : Option UserId
  credits_amount : Int
  reason : Option String
  metadata : List (String × String)
  created_at : Nat
  deriving Repr, DecidableEq

/-- The durable state of the credit subsystem: `credit_balances` (one row
per organization), `credit_ledger` and `credit_grants` (append-only, kept
in insertion = creation-time order), `credit_pricing` (keyed by
`(action_type, platform)`), and the id/timestamp counter. -/
structure DBState where
  balances : List (OrgId × Int)
  ledger : List LedgerEntry
  grants : List CreditGrantRow
  pricing : List ((String × String) × Int)
  nextId : Nat
  deriving Repr, DecidableEq

/-- Row lookup in the `credit_balances` table (as a list of rows). -/
def lookupBal (rows : List (OrgId × Int)) (org : OrgId) : Option Int :=
  (rows.find? (fun p => p.1 == org)).map (fun p => p.2)

/-- Row update in the `credit_balances` table (as a list of rows). -/
def updateBal (rows : List (OrgId × Int)) (org : OrgId) (b : Int) :
    List (OrgId × Int) :=
  rows.map (fun p => if p.1 == org then (p.1, b) else p)

/-- The query `SELECT balance FROM credit_balances WHERE organization_id = org`:
the balance column of the organization's row, if the row exists. -/
def lookupBalance (st : DBState) (org : OrgId) : Option Int :=
  lookupBal st.balances org

/-- The row-materialization step shared by both SQL functions: if no
`credit_balances` row exists for the organization, insert one with
balance 0 (`INSERT ... VALUES (org, 0) ON CONFLICT DO NOTHING`). -/
def ensureBalanceRow (st : DBState) (org : OrgId) : DBState :=
  match lookupBalance st org with
  | some _ => st
  | none => { st with balances := (org, 0) :: st.balances }

/-- The statement `UPDATE credit_balances SET balance = b WHERE organization_id = org`. -/
def updateBalance (st : DBState) (org : OrgId) (b : Int) : DBState :=
  { st with balances := updateBal st.balances org b }

/-- Result row of `deduct_credits_for_article`
(`success, balance_after, credits_deducted, error_message`). -/
structure DeductCreditsResult where
  success : Bool
  balance_after : Int
  credits_deducted : Int
  error_message : Option ErrMsg
  deriving Repr, DecidableEq

/-- Result row of `grant_credits` (`success, balance_after, error_message`). -/
structure GrantCreditsResult where
  success : Bool
  balance_after : Int
  error_message : Option ErrMsg
  deriving Repr, DecidableEq

/-- The PL/pgSQL function `deduct_credits_for_article` as redefined by
migration `005_update_deduct_credits_function.sql`:
1. reject when `p_credits_required IS NULL OR p_credits_required <= 0`;
2. lock / read the organization's balance row, materializing a zero row
   when absent (a committed side effect even when the debit then fails);
3. reject with the insufficient-credits message when
   `v_current_balance < p_credits_required`;
4. otherwise persist `v_current_balance - p_credits_required` and append
   one ledger row with `credits_delta = -p_credits_required`. -/
def deduct_credits_for_article (st : DBState)
    (p_organization_id : OrgId) (p_user_id : Option UserId)
    (p_action_type : String) (p_platform : Option String)
    (p_credits_required : Option Int)
    (p_article_id : Option String) (p_metadata : List (String × String)) :
    DeductCreditsResult × DBState :=
  match p_credits_required with
  | none => (⟨false, 0, 0, some (.invalidCredits none)⟩, st)
  | some cr =>
    if cr ≤ 0 then
      (⟨false, 0, 0, some (.invalidCredits (some cr))⟩, st)
    else
      let st1 := ensureBalanceRow st p_organization_id
      match lookupBalance st1 p_organization_id with
      | none => (⟨false, 0, 0, some .initFailed⟩, st1)
      | some v_current_balance =>
        if v_current_balance < cr then
          (⟨false, v_current_balance, 0, some (.insufficient cr v_current_balance)⟩, st1)
        else
          let v_new_balance := v_current_balance - cr
          let st2 := updateBalance st1 p_organization_id v_new_balance
          let entry : LedgerEntry :=
            { id := st2.nextId
              organization_id := p_organization_id
              user_id := p_user_id
              article_id := p_article_id
              action_type := p_action_type
              platform := p_platform
              credits_delta := -cr
              balance_after := v_new_balance
              metadata := .client p_metadata
              created_at := st2.nextId }
          let st3 := { st2 with ledger := st2.ledger ++ [entry], nextId := st2.nextId + 1 }
          (⟨true, v_new_balance, cr, none⟩, st3)

/-- The subquery `SELECT id FROM credit_grants WHERE organization_id = org
ORDER BY created_at DESC LIMIT 1`: the id of the most recently inserted
grant row for the organization (the grants list is kept in creation-time
order). -/
def latestGrantIdFor (grants : List CreditGrantRow) (org : OrgId) : Option Nat :=
  ((grants.filter (fun g => g.organization_id == org)).getLast?).map (fun g => g.id)

/-- The PL/pgSQL function `grant_credits` (migration `001_initial_schema.sql`):
locks / reads the balance row (materializing a zero row when absent), adds
`p_credits_amount` with no sign validation of its own, persists the new
balance, inserts a `credit_grants` row, and appends a ledger row whose
metadata is `jsonb_build_object('reason', p_reason, 'grant_id', <latest
grant id for the organization>)`.

The function itself performs no validation of `p_credits_amount`; the table
`CHECK` constraints do: `credit_balances CHECK (balance >= 0)` makes the
`UPDATE` raise when the new balance is negative, and
`credit_grants CHECK (credits_amount > 0)` makes the `INSERT` raise when the
amount is not positive.  Either exception aborts the whole transaction,
modelled as `Except.error` with the caller keeping the pre-call state. -/
def grant_credits (st : DBState) (p_organization_id : OrgId)
    (p_granted_by_user_id : Option UserId) (p_credits_amount : Int)
    (p_reason : Option String) (p_metadata : List (String × String)) :
    Except Unit (GrantCreditsResult × DBState) :=
  let st1 := ensureBalanceRow st p_organization_id
  match lookupBalance st1 p_organization_id with
  | none => .ok (⟨false, 0, some .initFailed⟩, st1)
  | some v_current_balance =>
    let v_new_balance := v_current_balance + p_credits_amount
    if v_new_balance < 0 then
      .error ()
    else if p_credits_amount ≤ 0 then
      .error ()
    else
      let st2 := updateBalance st1 p_organization_id v_new_balance
      let grantRow : CreditGrantRow :=
        { id := st2.nextId
          organization_id := p_organization_id
          granted_by_user_id := p_granted_by_user_id
          credits_amount := p_credits_amount
          reason := p_reason
          metadata := p_metadata
          created_at := st2.nextId }
      let st3 := { st2 with grants := st2.grants ++ [grantRow], nextId := st2.nextId + 1 }
      let entry : LedgerEntry :=
        { id := st3.nextId
          organization_id := p_organization_id
          user_id := p_granted_by_user_id
          article_id := none
          action_type := "CREDIT_GRANT"
          platform := none
          credits_delta := p_credits_amount
          balance_after := v_new_balance
          metadata := .grantInfo p_reason (latestGrantIdFor st3.grants p_organization_id)
          created_at := st3.nextId }
      let st4 := { st3 with ledger := st3.ledger ++ [entry], nextId := st3.nextId + 1 }
      .ok (⟨true, v_new_balance, none⟩, st4)

/-- TS service `getCreditBalanceByOrganizationId`
(`services/creditService/index.ts`): `SELECT * ... .single()`, returning the
row's balance when the row exists and `null` (here `none`) on `PGRST116`
(no row found).  A pure read. -/
def getCreditBalanceByOrganizationId (st : DBState) (organizationId : OrgId) : Option Int :=
  lookupBalance st organizationId

/-- TS manager `getCreditBalanceForOrganization`
(`managers/articleManager/index.ts`): `balanceRecord?.balance ?? 0`. -/
def getCreditBalanceForOrganization (st : DBState) (organizationId : OrgId) : Int :=
  (getCreditBalanceByOrganizationId st organizationId).getD 0

/-- TS service `getCreditPricingByActionAndPlatform`: looks up the
`credit_pricing` row for the `(action_type, platform)` pair, returning its
`credits_required` or `none` when no row matches. -/
def getCreditPricingByActionAndPlatform (st : DBState)
    (actionType : String) (platform : String) : Option Int :=
  (st.pricing.find? (fun p => p.1.1 == actionType && p.1.2 == platform)).map (fun p => p.2)

/-- Return shape of the manager's `checkSufficientCredits`. -/
structure CheckCreditsResult where
  hasSufficientCredits : Bool
  currentBalance : Int
  requiredCredits : Int
  deriving Repr, DecidableEq

/-- TS manager `checkSufficientCredits`: reads the balance (0 when no row),
resolves the price, throws `No pricing found ...` when absent, and returns
`currentBalance >= requiredCredits` together with both numbers.  The
function only calls the two read services, so it takes no state forward:
it mutates nothing. -/
def checkSufficientCredits (st : DBState) (organizationId : OrgId)
    (actionType : String) (platform : String) : Except ErrMsg CheckCreditsResult :=
  let currentBalance := getCreditBalanceForOrganization st organizationId
  match getCreditPricingByActionAndPlatform st actionType platform with
  | none => .error (.pricingNotFound actionType platform)
  | some requiredCredits =>
    .ok ⟨decide (requiredCredits ≤ currentBalance), currentBalance, requiredCredits⟩

/-- TS service `deductCreditsForArticle`: forwards to the rpc
`deduct_credits_for_article` with `p_action_type` fixed to
`'ARTICLE_CREATE'`. -/
def deductCreditsForArticle (st : DBState) (organizationId : OrgId)
    (userId : Option UserId) (platform : String) (creditsRequired : Option Int)
    (articleId : Option String) (metadata : List (String × String)) :
    DeductCreditsResult × DBState :=
  deduct_credits_for_article st organizationId userId "ARTICLE_CREATE"
    (some platform) creditsRequired articleId metadata

/-- TS service `grantCredits`: forwards to the rpc `grant_credits`; when the
rpc itself errors (the SQL transaction aborted) it throws
`Failed to grant credits: ...`. -/
def grantCredits (st : DBState) (organizationId : OrgId)
    (grantedByUserId : Option UserId) (creditsAmount : Int)
    (reason : Option String) (metadata : List (String × String)) :
    Except ErrMsg (GrantCreditsResult × DBState) :=
  match grant_credits st organizationId grantedByUserId creditsAmount reason metadata with
  | .error _ => .error .sqlAborted
  | .ok rs => .ok rs

/-- TS manager `deductCreditsForArticleCreation`: throws
`creditsRequired must be a positive integer` when
`!creditsRequired || creditsRequired <= 0` (over integers: `creditsRequired
<= 0`) before any service call, then calls the service and throws the
returned `error_message` (or the fallback) when `success` is false.  A
thrown error is `Except.error`; the state component records what the
database committed either way. -/
def deductCreditsForArticleCreation (st : DBState) (organizationId : OrgId)
    (userId : Option UserId) (platform : String) (creditsRequired : Int)
    (articleId : Option String) (metadata : List (String × String)) :
    Except ErrMsg Int × DBState :=
  if creditsRequired ≤ 0 then
    (.error .creditsRequiredNotPositive, st)
  else
    let rs := deductCreditsForArticle st organizationId userId platform
      (some creditsRequired) articleId metadata
    if rs.1.success then (.ok rs.1.balance_after, rs.2)
    else (.error (rs.1.error_message.getD .failedToDeduct), rs.2)

/-- TS manager `grantCreditsToOrganization`: throws
`Credits amount must be greater than 0` when `creditsAmount <= 0` before any
service call, then calls the service and unwraps the result as the debit
manager does. -/
def grantCreditsToOrganization (st : DBState) (organizationId : OrgId)
    (grantedByUserId : Option UserId) (creditsAmount : Int)
    (reason : Option String) (metadata : List (String × String)) :
    Except ErrMsg Int × DBState :=
  if creditsAmount ≤ 0 then
    (.error .creditsAmountNotPositive, st)
  else
    match grantCredits st organizationId grantedByUserId creditsAmount reason metadata with
    | .error e => (.error e, st)
    | .ok rs =>
      if rs.1.success then (.ok rs.1.balance_after, rs.2)
      else (.error (rs.1.error_message.getD .failedToGrant), rs.2)

/-- The WHERE clause of `getCreditLedgerEntries`: organization equality plus
the optional `created_at >= startDate`, `created_at <= endDate`,
`platform = ?`, `action_type = ?` filters. -/
def entryMatches (organizationId : OrgId) (startDate endDate : Option Nat)
    (platform : Option String) (actionType : Option String) (e : LedgerEntry) : Bool :=
  e.organization_id == organizationId
  && (match startDate with | none => true | some s => decide (s ≤ e.created_at))
  && (match endDate with | none => true | some t => decide (e.created_at ≤ t))
  && (match platform with | none => true | some pl => e.platform == some pl)
  && (match actionType with | none => true | some a => e.action_type == a)

/-- Insertion step of the `ORDER BY created_at DESC` sort. -/
def insertDescByCreated (e : LedgerEntry) : List LedgerEntry → List LedgerEntry
  | [] => [e]
  | x :: xs =>
    if x.created_at ≤ e.created_at then e :: x :: xs
    else x :: insertDescByCreated e xs

/-- The ordering `ORDER BY created_at DESC` as an insertion sort. -/
def sortDescByCreated : List LedgerEntry → List LedgerEntry
  | [] => []
  | x :: xs => insertDescByCreated x (sortDescByCreated xs)

/-- TS service `getCreditLedgerEntries`: filters the ledger, orders by
`created_at` descending, applies `.range(from, to)` with
`from = (page - 1) * pageSize` and `to = from + pageSize - 1` (an inclusive
row window, i.e. drop `from` then take `pageSize`), and returns the rows of
that window together with the exact count of all matching rows
(`count: 'exact'` is computed on the filtered query, ignoring the range).
Page numbers are modelled as `Nat`: the manager validates `page < 1` and
`pageSize < 1` before calling, so every call that reaches this query has
`page ≥ 1` and `pageSize ≥ 1`, and a negative argument behaves like the
rejected 0. -/
def getCreditLedgerEntries (st : DBState) (organizationId : OrgId)
    (startDate endDate : Option Nat) (platform : Option String)
    (actionType : Option String) (page pageSize : Nat) :
    List LedgerEntry × Nat :=
  let matching := st.ledger.filter
    (entryMatches organizationId startDate endDate platform actionType)
  let sorted := sortDescByCreated matching
  let fro := (page - 1) * pageSize
  ((sorted.drop fro).take pageSize, matching.length)

/-- The interface `CreditLedgerFilters` (`db_models/credit.ts`). -/
structure CreditLedgerFilters where
  organizationId : OrgId
  startDate : Option Nat
  endDate : Option Nat
  platform : Option String
  actionType : Option String
  page : Option Nat
  pageSize : Option Nat
  deriving Repr, DecidableEq

/-- The interface `PaginatedCreditLedger` (`db_models/credit.ts`). -/
structure PaginatedCreditLedger where
  entries : List LedgerEntry
  total : Nat
  page : Nat
  pageSize : Nat
  totalPages : Nat
  deriving Repr, DecidableEq

/-- TS manager `getCreditLedgerForOrganization`: defaults `page` to 1 and
`pageSize` to 50, throws `Page must be greater than 0` when `page < 1` and
`Page size must be between 1 and 100` when `pageSize < 1 || pageSize > 100`,
queries the service, and returns the page together with
`totalPages = Math.ceil(total / pageSize)` (for a nonnegative total and a
positive integer page size this is `(total + pageSize - 1) / pageSize` in
integer division). -/
def getCreditLedgerForOrganization (st : DBState) (filters : CreditLedgerFilters) :
    Except ErrMsg PaginatedCreditLedger :=
  let page := filters.page.getD 1
  let pageSize := filters.pageSize.getD 50
  if page < 1 then .error .pageOutOfRange
  else if pageSize < 1 || 100 < pageSize then .error .pageSizeOutOfRange
  else
    let et := getCreditLedgerEntries st filters.organizationId filters.startDate
      filters.endDate filters.platform filters.actionType page pageSize
    let totalPages := (et.2 + pageSize - 1) / pageSize
    .ok ⟨et.1, et.2, page, pageSize, totalPages⟩

/-- A committed call of the atomic mutation engine: one invocation of the
SQL function `deduct_credits_for_article` or `grant_credits`. -/
inductive CreditOp where
  | debit (org : OrgId) (user : Option UserId) (actionType : String)
      (platform : Option String) (creditsRequired : Option Int)
      (articleId : Option String) (meta : List (String × String))
  | grant (org : OrgId) (grantedBy : Option UserId) (amount : Int)
      (reason : Option String) (meta : List (String × String))

/-- The state committed by one operation (an aborted grant transaction
commits nothing). -/
def applyOp (st : DBState) : CreditOp → DBState
  | .debit org user actionType platform cr articleId meta =>
    (deduct_credits_for_article st org user actionType platform cr articleId meta).2
  | .grant org grantedBy amount reason meta =>
    match grant_credits st org grantedBy amount reason meta with
    | .error _ => st
    | .ok rs => rs.2

/-- Run a sequence of Debit/Grant operations. -/
def runOps (st : DBState) (ops : List CreditOp) : DBState := ops.foldl applyOp st

/-- The freshly migrated database: empty balances, ledger and grants, with
whatever rows `credit_pricing` carries. -/
def initState (pricing : List ((String × String) × Int)) : DBState :=
  ⟨[], [], [], pricing, 0⟩

/-- Sum of `credits_delta` over all ledger entries of one organization. -/
def ledgerSum (st : DBState) (org : OrgId) : Int :=
  ((st.ledger.filter (fun e => e.organization_id == org)).map
    (fun e => e.credits_delta)).sum

/-- The reconciliation invariant: every organization's observable balance
equals the sum of its ledger deltas. -/
def Reconciled (st : DBState) : Prop :=
  ∀ org, getCreditBalanceForOrganization st org = ledgerSum st org

/-- The non-negativity invariant on observable balances. -/
def NonNegBalances (st : DBState) : Prop :=
  ∀ org, 0 ≤ getCreditBalanceForOrganization st org

/-! ### Lemmas about the balances table -/

theorem lookupBal_cons (p : OrgId × Int) (rows : List (OrgId × Int)) (o : OrgId) :
    lookupBal (p :: rows) o = if p.1 = o then some p.2 else lookupBal rows o := by
  by_cases h : p.1 = o <;> simp [lookupBal, List.find?_cons, h]

theorem updateBal_cons (p : OrgId × Int) (rows : List (OrgId × Int))
    (org : OrgId) (b : Int) :
    updateBal (p :: rows) org b =
      (if p.1 = org then (p.1, b) else p) :: updateBal rows org b := by
  by_cases h : p.1 = org <;> simp [updateBal, h]

theorem lookupBal_updateBal (rows : List (OrgId × Int)) (org : OrgId) (b : Int)
    (o : OrgId) :
    lookupBal (updateBal rows org b) o =
      if o = org then (lookupBal rows org).map (fun _ => b)
      else lookupBal rows o := by
  induction rows with
  | nil => by_cases h : o = org <;> simp [lookupBal, updateBal, h]
  | cons p rows ih =>
    rw [updateBal_cons]
    by_cases hp : p.1 = org
    · rw [if_pos hp]
      by_cases ho : o = org
      · subst ho; simp [lookupBal_cons, hp]
      · have hpo : ¬ p.1 = o := by rw [hp]; exact fun hh => ho hh.symm
        simp [lookupBal_cons, hpo, ho, ih]
    · rw [if_neg hp]
      by_cases ho : o = org
      · subst ho; simp [lookupBal_cons, hp, ih]
      · simp [lookupBal_cons, hp, ho, ih]

theorem lookupBalance_ensure (st : DBState) (org o : OrgId) :
    lookupBalance (ensureBalanceRow st org) o =
      if o = org then some ((lookupBalance st org).getD 0)
      else lookupBalance st o := by
  unfold ensureBalanceRow
  cases h : lookupBalance st org with
  | some b => by_cases ho : o = org <;> simp [h, ho]
  | none =>
    by_cases ho : o = org
    · subst ho; simp [lookupBalance, lookupBal_cons, h]
    · have ho' : ¬ org = o := fun hh => ho hh.symm
      simp [lookupBalance, lookupBal_cons, h, ho, ho']

theorem lookupBalance_ensure_self (st : DBState) (org : OrgId) :
    lookupBalance (ensureBalanceRow st org) org =
      some (getCreditBalanceForOrganization st org) := by
  rw [lookupBalance_ensure]
  simp [getCreditBalanceForOrganization, getCreditBalanceByOrganizationId]

theorem getBal_ensure (st : DBState) (org o : OrgId) :
    getCreditBalanceForOrganization (ensureBalanceRow st org) o =
      getCreditBalanceForOrganization st o := by
  unfold getCreditBalanceForOrganization getCreditBalanceByOrganizationId
  rw [lookupBalance_ensure]
  by_cases ho : o = org <;> simp [ho]

theorem ensureBalanceRow_ledger (st : DBState) (org : OrgId) :
    (ensureBalanceRow st org).ledger = st.ledger := by
  unfold ensureBalanceRow; cases lookupBalance st org <;> rfl

theorem ensureBalanceRow_grants (st : DBState) (org : OrgId) :
    (ensureBalanceRow st org).grants = st.grants := by
  unfold ensureBalanceRow; cases lookupBalance st org <;> rfl

theorem ensureBalanceRow_pricing (st : DBState) (org : OrgId) :
    (ensureBalanceRow st org).pricing = st.pricing := by
  unfold ensureBalanceRow; cases lookupBalance st org <;> rfl

theorem ensureBalanceRow_nextId (st : DBState) (org : OrgId) :
    (ensureBalanceRow st org).nextId = st.nextId := by
  unfold ensureBalanceRow; cases lookupBalance st org <;> rfl

/-! ### Characterization of `deduct_credits_for_article` -/

/-- The ledger row a successful debit inserts. -/
def debitLedgerEntry (st : DBState) (org : OrgId) (u : Option UserId)
    (a : String) (p : Option String) (cr : Int) (art : Option String)
    (m : List (String × String)) : LedgerEntry :=
  { id := st.nextId
    organization_id := org
    user_id := u
    article_id := art
    action_type := a
    platform := p
    credits_delta := -cr
    balance_after := getCreditBalanceForOrganization st org - cr
    metadata := .client m
    created_at := st.nextId }

/-- The state a successful debit commits. -/
def debitSuccessState (st : DBState) (org : OrgId) (u : Option UserId)
    (a : String) (p : Option String) (cr : Int) (art : Option String)
    (m : List (String × String)) : DBState :=
  { balances := updateBal (ensureBalanceRow st org).balances org
      (getCreditBalanceForOrganization st org - cr)
    ledger := st.ledger ++ [debitLedgerEntry st org u a p cr art m]
    grants := st.grants
    pricing := st.pricing
    nextId := st.nextId + 1 }

theorem deduct_missing (st : DBState) (org : OrgId) (u : Option UserId)
    (a : String) (p : Option String) (art : Option String)
    (m : List (String × String)) :
    deduct_credits_for_article st org u a p none art m =
      (⟨false, 0, 0, some (.invalidCredits none)⟩, st) := rfl

theorem deduct_nonpos (st : DBState) (org : OrgId) (u : Option UserId)
    (a : String) (p : Option String) (cr : Int) (art : Option String)
    (m : List (String × String)) (h : cr ≤ 0) :
    deduct_credits_for_article st org u a p (some cr) art m =
      (⟨false, 0, 0, some (.invalidCredits (some cr))⟩, st) := by
  simp [deduct_credits_for_article, h]

theorem deduct_insufficient (st : DBState) (org : OrgId) (u : Option UserId)
    (a : String) (p : Option String) (cr : Int) (art : Option String)
    (m : List (String × String)) (hcr : 0 < cr)
    (hlt : getCreditBalanceForOrganization st org < cr) :
    deduct_credits_for_article st org u a p (some cr) art m =
      (⟨false, getCreditBalanceForOrganization st org, 0,
        some (.insufficient cr (getCreditBalanceForOrganization st org))⟩,
       ensureBalanceRow st org) := by
  have h0 : ¬ cr ≤ 0 := not_le.mpr hcr
  simp [deduct_credits_for_article, h0, lookupBalance_ensure_self, hlt]

theorem deduct_success (st : DBState) (org : OrgId) (u : Option UserId)
    (a : String) (p : Option String) (cr : Int) (art : Option String)
    (m : List (String × String)) (hcr : 0 < cr)
    (hge : cr ≤ getCreditBalanceForOrganization st org) :
    deduct_credits_for_article st org u a p (some cr) art m =
      (⟨true, getCreditBalanceForOrganization st org - cr, cr, none⟩,
       debitSuccessState st org u a p cr art m) := by
  have h0 : ¬ cr ≤ 0 := not_le.mpr hcr
  have h1 : ¬ getCreditBalanceForOrganization st org < cr := not_lt.mpr hge
  simp [deduct_credits_for_article, h0, lookupBalance_ensure_self, h1,
    debitSuccessState, debitLedgerEntry, updateBalance,
    ensureBalanceRow_ledger, ensureBalanceRow_grants,
    ensureBalanceRow_pricing, ensureBalanceRow_nextId]

/-! ### Ledger-sum lemmas -/

/-- Sum of `credits_delta` over the entries of one organization in a list. -/
def deltaSum (l : List LedgerEntry) (org : OrgId) : Int :=
  ((l.filter (fun e => e.organization_id == org)).map
    (fun e => e.credits_delta)).sum

theorem deltaSum_append (l1 l2 : List LedgerEntry) (org : OrgId) :
    deltaSum (l1 ++ l2) org = deltaSum l1 org + deltaSum l2 org := by
  simp [deltaSum, List.filter_append]

theorem deltaSum_singleton (e : LedgerEntry) (org : OrgId) :
    deltaSum [e] org =
      if e.organization_id = org then e.credits_delta else 0 := by
  by_cases h : e.organization_id = org <;> simp [deltaSum, h]

theorem ledgerSum_eq_deltaSum (st : DBState) (org : OrgId) :
    ledgerSum st org = deltaSum st.ledger org := rfl

/-! ### Characterization of `grant_credits` -/

/-- The `credit_grants` row a successful grant inserts. -/
def grantRowOf (st : DBState) (org : OrgId) (gby : Option UserId)
    (amount : Int) (reason : Option String) (m : List (String × String)) :
    CreditGrantRow :=
  { id := st.nextId
    organization_id := org
    granted_by_user_id := gby
    credits_amount := amount
    reason := reason
    metadata := m
    created_at := st.nextId }

/-- The ledger row a successful grant inserts: its metadata is the built
object `{'reason': reason, 'grant_id': <id of the grant row just inserted>}`,
not the caller-supplied metadata. -/
def grantLedgerEntry (st : DBState) (org : OrgId) (gby : Option UserId)
    (amount : Int) (reason : Option String) : LedgerEntry :=
  { id := st.nextId + 1
    organization_id := org
    user_id := gby
    article_id := none
    action_type := "CREDIT_GRANT"
    platform := none
    credits_delta := amount
    balance_after := getCreditBalanceForOrganization st org + amount
    metadata := .grantInfo reason (some st.nextId)
    created_at := st.nextId + 1 }

/-- The state a successful grant commits. -/
def grantSuccessState (st : DBState) (org : OrgId) (gby : Option UserId)
    (amount : Int) (reason : Option String) (m : List (String × String)) :
    DBState :=
  { balances := updateBal (ensureBalanceRow st org).balances org
      (getCreditBalanceForOrganization st org + amount)
    ledger := st.ledger ++ [grantLedgerEntry st org gby amount reason]
    grants := st.grants ++ [grantRowOf st org gby amount reason m]
    pricing := st.pricing
    nextId := st.nextId + 2 }

theorem latestGrantIdFor_append (gs : List CreditGrantRow) (g : CreditGrantRow)
    (org : OrgId) (h : g.organization_id = org) :
    latestGrantIdFor (gs ++ [g]) org = some g.id := by
  simp [latestGrantIdFor, List.filter_append, h]

theorem grant_abort (st : DBState) (org : OrgId) (gby : Option UserId)
    (amount : Int) (reason : Option String) (m : List (String × String))
    (h : getCreditBalanceForOrganization st org + amount < 0 ∨ amount ≤ 0) :
    grant_credits st org gby amount reason m = .error () := by
  rcases h with h | h
  · simp [grant_credits, lookupBalance_ensure_self, h]
  · by_cases h2 : getCreditBalanceForOrganization st org + amount < 0
    · simp [grant_credits, lookupBalance_ensure_self, h2]
    · simp [grant_credits, lookupBalance_ensure_self, h2, h]

theorem grant_success (st : DBState) (org : OrgId) (gby : Option UserId)
    (amount : Int) (reason : Option String) (m : List (String × String))
    (hnew : 0 ≤ getCreditBalanceForOrganization st org + amount)
    (hpos : 0 < amount) :
    grant_credits st org gby amount reason m =
      .ok (⟨true, getCreditBalanceForOrganization st org + amount, none⟩,
           grantSuccessState st org gby amount reason m) := by
  have h1 : ¬ getCreditBalanceForOrganization st org + amount < 0 := not_lt.mpr hnew
  have h2 : ¬ amount ≤ 0 := not_le.mpr hpos
  simp [grant_credits, lookupBalance_ensure_self, h1, h2, grantSuccessState,
    grantRowOf, grantLedgerEntry, updateBalance, latestGrantIdFor_append,
    ensureBalanceRow_ledger, ensureBalanceRow_grants,
    ensureBalanceRow_pricing, ensureBalanceRow_nextId]

/-! ### Field projections of the committed states -/

theorem debitSuccessState_ledger (st : DBState) (org : OrgId) (u : Option UserId)
    (a : String) (p : Option String) (cr : Int) (art : Option String)
    (m : List (String × String)) :
    (debitSuccessState st org u a p cr art m).ledger =
      st.ledger ++ [debitLedgerEntry st org u a p cr art m] := rfl

theorem debitSuccessState_grants (st : DBState) (org : OrgId) (u : Option UserId)
    (a : String) (p : Option String) (cr : Int) (art : Option String)
    (m : List (String × String)) :
    (debitSuccessState st org u a p cr art m).grants = st.grants := rfl

theorem grantSuccessState_ledger (st : DBState) (org : OrgId) (gby : Option UserId)
    (amount : Int) (reason : Option String) (m : List (String × String)) :
    (grantSuccessState st org gby amount reason m).ledger =
      st.ledger ++ [grantLedgerEntry st org gby amount reason] := rfl

theorem grantSuccessState_grants (st : DBState) (org : OrgId) (gby : Option UserId)
    (amount : Int) (reason : Option String) (m : List (String × String)) :
    (grantSuccessState st org gby amount reason m).grants =
      st.grants ++ [grantRowOf st org gby amount reason m] := rfl

theorem getBal_debitSuccessState (st : DBState) (org : OrgId) (u : Option UserId)
    (a : String) (p : Option String) (cr : Int) (art : Option String)
    (m : List (String × String)) (o : OrgId) :
    getCreditBalanceForOrganization (debitSuccessState st org u a p cr art m) o =
      if o = org then getCreditBalanceForOrganization st org - cr
      else getCreditBalanceForOrganization st o := by
  unfold getCreditBalanceForOrganization getCreditBalanceByOrganizationId
    lookupBalance debitSuccessState
  rw [lookupBal_updateBal]
  by_cases ho : o = org
  · subst ho
    have h := lookupBalance_ensure_self st o
    unfold lookupBalance at h
    simp [h, getCreditBalanceForOrganization, getCreditBalanceByOrganizationId,
      lookupBalance]
  · have h := lookupBalance_ensure st org o
    unfold lookupBalance at h
    simp [h, ho]

theorem getBal_grantSuccessState (st : DBState) (org : OrgId) (gby : Option UserId)
    (amount : Int) (reason : Option String) (m : List (String × String))
    (o : OrgId) :
    getCreditBalanceForOrganization (grantSuccessState st org gby amount reason m) o =
      if o = org then getCreditBalanceForOrganization st org + amount
      else getCreditBalanceForOrganization st o := by
  unfold getCreditBalanceForOrganization getCreditBalanceByOrganizationId
    lookupBalance grantSuccessState
  rw [lookupBal_updateBal]
  by_cases ho : o = org
  · subst ho
    have h := lookupBalance_ensure_self st o
    unfold lookupBalance at h
    simp [h, getCreditBalanceForOrganization, getCreditBalanceByOrganizationId,
      lookupBalance]
  · have h := lookupBalance_ensure st org o
    unfold lookupBalance at h
    simp [h, ho]

/-! ### Preservation of the invariants -/

theorem reconciled_debit (st : DBState) (org : OrgId) (u : Option UserId)
    (a : String) (p : Option String) (cr : Option Int) (art : Option String)
    (m : List (String × String)) (h : Reconciled st) :
    Reconciled (deduct_credits_for_article st org u a p cr art m).2 := by
  match cr with
  | none => rw [deduct_missing]; exact h
  | some c =>
    by_cases hc : c ≤ 0
    · rw [deduct_nonpos st org u a p c art m hc]; exact h
    · have hc' : 0 < c := lt_of_not_le hc
      by_cases hlt : getCreditBalanceForOrganization st org < c
      · rw [deduct_insufficient st org u a p c art m hc' hlt]
        intro o
        rw [getBal_ensure, ledgerSum_eq_deltaSum, ensureBalanceRow_ledger]
        exact h o
      · have hge : c ≤ getCreditBalanceForOrganization st org := not_lt.mp hlt
        rw [deduct_success st org u a p c art m hc' hge]
        intro o
        rw [getBal_debitSuccessState, ledgerSum_eq_deltaSum,
          debitSuccessState_ledger, deltaSum_append, deltaSum_singleton]
        have ho := h o
        rw [ledgerSum_eq_deltaSum] at ho
        by_cases hoo : o = org
        · subst hoo
          have hb := h o
          rw [ledgerSum_eq_deltaSum] at hb
          simp [debitLedgerEntry, hb]
          omega
        · have : ¬ (debitLedgerEntry st org u a p c art m).organization_id = o := by
            simp [debitLedgerEntry]; exact fun hh => hoo hh.symm
          simp [this, hoo, ho]

theorem reconciled_grant (st : DBState) (org : OrgId) (gby : Option UserId)
    (amount : Int) (reason : Option String) (m : List (String × String))
    (h : Reconciled st) :
    Reconciled (applyOp st (.grant org gby amount reason m)) := by
  by_cases h1 : getCreditBalanceForOrganization st org + amount < 0
  · simp only [applyOp, grant_abort st org gby amount reason m (Or.inl h1)]
    exact h
  · by_cases h2 : amount ≤ 0
    · simp only [applyOp, grant_abort st org gby amount reason m (Or.inr h2)]
      exact h
    · simp only [applyOp,
        grant_success st org gby amount reason m (not_lt.mp h1) (lt_of_not_le h2)]
      intro o
      rw [getBal_grantSuccessState, ledgerSum_eq_deltaSum,
        grantSuccessState_ledger, deltaSum_append, deltaSum_singleton]
      have ho := h o
      rw [ledgerSum_eq_deltaSum] at ho
      by_cases hoo : o = org
      · subst hoo
        simp [grantLedgerEntry, ho]
      · have : ¬ (grantLedgerEntry st org gby amount reason).organization_id = o := by
          simp [grantLedgerEntry]; exact fun hh => hoo hh.symm
        simp [this, hoo, ho]

theorem reconciled_applyOp (st : DBState) (op : CreditOp) (h : Reconciled st) :
    Reconciled (applyOp st op) := by
  match op with
  | .debit org u a p cr art m => exact reconciled_debit st org u a p cr art m h
  | .grant org gby amount reason m => exact reconciled_grant st org gby amount reason m h

theorem nonneg_debit (st : DBState) (org : OrgId) (u : Option UserId)
    (a : String) (p : Option String) (cr : Option Int) (art : Option String)
    (m : List (String × String)) (h : NonNegBalances st) :
    NonNegBalances (deduct_credits_for_article st org u a p cr art m).2 := by
  match cr with
  | none => rw [deduct_missing]; exact h
  | some c =>
    by_cases hc : c ≤ 0
    · rw [deduct_nonpos st org u a p c art m hc]; exact h
    · have hc' : 0 < c := lt_of_not_le hc
      by_cases hlt : getCreditBalanceForOrganization st org < c
      · rw [deduct_insufficient st org u a p c art m hc' hlt]
        intro o
        rw [getBal_ensure]
        exact h o
      · have hge : c ≤ getCreditBalanceForOrganization st org := not_lt.mp hlt
        rw [deduct_success st org u a p c art m hc' hge]
        intro o
        rw [getBal_debitSuccessState]
        by_cases hoo : o = org
        · subst hoo; simp; omega
        · simp [hoo]; exact h o

theorem nonneg_grant (st : DBState) (org : OrgId) (gby : Option UserId)
    (amount : Int) (reason : Option String) (m : List (String × String))
    (h : NonNegBalances st) :
    NonNegBalances (applyOp st (.grant org gby amount reason m)) := by
  by_cases h1 : getCreditBalanceForOrganization st org + amount < 0
  · simp only [applyOp, grant_abort st org gby amount reason m (Or.inl h1)]
    exact h
  · by_cases h2 : amount ≤ 0
    · simp only [applyOp, grant_abort st org gby amount reason m (Or.inr h2)]
      exact h
    · simp only [applyOp,
        grant_success st org gby amount reason m (not_lt.mp h1) (lt_of_not_le h2)]
      intro o
      rw [getBal_grantSuccessState]
      by_cases hoo : o = org
      · subst hoo; simp; omega
      · simp [hoo]; exact h o

theorem nonneg_applyOp (st : DBState) (op : CreditOp) (h : NonNegBalances st) :
    NonNegBalances (applyOp st op) := by
  match op with
  | .debit org u a p cr art m => exact nonneg_debit st org u a p cr art m h
  | .grant org gby amount reason m => exact nonneg_grant st org gby amount reason m h

theorem reconciled_runOps (ops : List CreditOp) (st : DBState) (h : Reconciled st) :
    Reconciled (runOps st ops) := by
  induction ops generalizing st with
  | nil => exact h
  | cons op ops ih => exact ih (applyOp st op) (reconciled_applyOp st op h)

theorem nonneg_runOps (ops : List CreditOp) (st : DBState) (h : NonNegBalances st) :
    NonNegBalances (runOps st ops) := by
  induction ops generalizing st with
  | nil => exact h
  | cons op ops ih => exact ih (applyOp st op) (nonneg_applyOp st op h)

theorem reconciled_initState (pricing : List ((String × String) × Int)) :
    Reconciled (initState pricing) := by
  intro org
  rfl

theorem nonneg_initState (pricing : List ((String × String) × Int)) :
    NonNegBalances (initState pricing) := by
  intro org
  exact le_refl 0

/-! ### Sorting lemmas for the ledger query -/

theorem mem_insertDescByCreated (e x : LedgerEntry) (l : List LedgerEntry) :
    x ∈ insertDescByCreated e l ↔ x = e ∨ x ∈ l := by
  induction l with
  | nil => simp [insertDescByCreated]
  | cons y l ih =>
    by_cases h : y.created_at ≤ e.created_at
    · simp only [insertDescByCreated, if_pos h, List.mem_cons]
    · simp only [insertDescByCreated, if_neg h, List.mem_cons, ih]
      tauto

theorem perm_insertDescByCreated (e : LedgerEntry) (l : List LedgerEntry) :
    (insertDescByCreated e l).Perm (e :: l) := by
  induction l with
  | nil => exact List.Perm.refl _
  | cons y l ih =>
    by_cases h : y.created_at ≤ e.created_at
    · simp only [insertDescByCreated, if_pos h]
      exact List.Perm.refl _
    · simp only [insertDescByCreated, if_neg h]
      exact (ih.cons y).trans (List.Perm.swap e y l)

theorem perm_sortDescByCreated (l : List LedgerEntry) :
    (sortDescByCreated l).Perm l := by
  induction l with
  | nil => exact List.Perm.refl _
  | cons y l ih =>
    exact (perm_insertDescByCreated y (sortDescByCreated l)).trans (ih.cons y)

theorem length_sortDescByCreated (l : List LedgerEntry) :
    (sortDescByCreated l).length = l.length :=
  (perm_sortDescByCreated l).length_eq

theorem pairwise_insertDescByCreated (e : LedgerEntry) (l : List LedgerEntry)
    (h : l.Pairwise (fun a b => b.created_at ≤ a.created_at)) :
    (insertDescByCreated e l).Pairwise
      (fun a b => b.created_at ≤ a.created_at) := by
  induction l with
  | nil => simp [insertDescByCreated]
  | cons y l ih =>
    rw [List.pairwise_cons] at h
    obtain ⟨hy, hl⟩ := h
    by_cases hc : y.created_at ≤ e.created_at
    · simp only [insertDescByCreated, if_pos hc]
      rw [List.pairwise_cons]
      constructor
      · intro b hb
        rcases List.mem_cons.mp hb with rfl | hb
        · exact hc
        · exact le_trans (hy b hb) hc
      · rw [List.pairwise_cons]; exact ⟨hy, hl⟩
    · simp only [insertDescByCreated, if_neg hc]
      rw [List.pairwise_cons]
      constructor
      · intro b hb
        rcases (mem_insertDescByCreated e b l).mp hb with rfl | hb
        · exact le_of_lt (lt_of_not_le hc)
        · exact hy b hb
      · exact ih hl

theorem sorted_sortDescByCreated (l : List LedgerEntry) :
    (sortDescByCreated l).Pairwise
      (fun a b => b.created_at ≤ a.created_at) := by
  induction l with
  | nil => simp [sortDescByCreated]
  | cons y l ih => exact pairwise_insertDescByCreated y _ ih

theorem lookupBalance_debitSuccessState_self (st : DBState) (org : OrgId)
    (u : Option UserId) (a : String) (p : Option String) (cr : Int)
    (art : Option String) (m : List (String × String)) :
    lookupBalance (debitSuccessState st org u a p cr art m) org =
      some (getCreditBalanceForOrganization st org - cr) := by
  unfold lookupBalance debitSuccessState
  rw [lookupBal_updateBal]
  have h := lookupBalance_ensure_self st org
  unfold lookupBalance at h
  simp [h]

theorem lookupBalance_grantSuccessState_self (st : DBState) (org : OrgId)
    (gby : Option UserId) (amount : Int) (reason : Option String)
    (m : List (String × String)) :
    lookupBalance (grantSuccessState st org gby amount reason m) org =
      some (getCreditBalanceForOrganization st org + amount) := by
  unfold lookupBalance grantSuccessState
  rw [lookupBal_updateBal]
  have h := lookupBalance_ensure_self st org
  unfold lookupBalance at h
  simp [h]

/-! ## The claims -/

/-- C1: for every pricing table and every sequence of committed Debit and
Grant operations run from the freshly migrated state, every organization's
current balance equals the sum of `credits_delta` over all ledger entries
written for that organization — the reconciliation invariant holds after
every operation. -/
theorem reconciliation_invariant (pricing : List ((String × String) × Int))
    (ops : List CreditOp) :
    Reconciled (runOps (initState pricing) ops) :=
  reconciled_runOps ops (initState pricing) (reconciled_initState pricing)

/-- C2: after every sequence of committed Debit/Grant operations every
balance is nonnegative, and a Debit whose application would make the
balance negative (current balance minus requested credits below zero)
commits no balance change and no ledger entry and reports failure. -/
theorem nonneg_invariant :
    (∀ (pricing : List ((String × String) × Int)) (ops : List CreditOp),
      NonNegBalances (runOps (initState pricing) ops)) ∧
    (∀ (st : DBState) (org : OrgId) (u : Option UserId) (a : String)
        (p : Option String) (cr : Int) (art : Option String)
        (m : List (String × String)),
      getCreditBalanceForOrganization st org - cr < 0 →
      (deduct_credits_for_article st org u a p (some cr) art m).1.success = false ∧
      (deduct_credits_for_article st org u a p (some cr) art m).2.ledger = st.ledger ∧
      ∀ o, getCreditBalanceForOrganization
          (deduct_credits_for_article st org u a p (some cr) art m).2 o =
        getCreditBalanceForOrganization st o) := by
  constructor
  · intro pricing ops
    exact nonneg_runOps ops _ (nonneg_initState pricing)
  · intro st org u a p cr art m hneg
    by_cases hc : cr ≤ 0
    · rw [deduct_nonpos st org u a p cr art m hc]
      exact ⟨rfl, rfl, fun o => rfl⟩
    · have hc' : 0 < cr := lt_of_not_le hc
      have hlt : getCreditBalanceForOrganization st org < cr := by omega
      rw [deduct_insufficient st org u a p cr art m hc' hlt]
      exact ⟨rfl, ensureBalanceRow_ledger st org, fun o => getBal_ensure st org o⟩

/-- Witness for C2 at concrete inputs: one grant of 50 leaves a
nonnegative balance, and a debit of 5 against the empty state fails
without touching ledger or balance. -/
theorem nonneg_invariant_witness :
    0 ≤ getCreditBalanceForOrganization
        (runOps (initState []) [.grant "o1" none 50 none []]) "o1" ∧
    (deduct_credits_for_article (initState []) "o1" none "ARTICLE_CREATE"
        (some "blog") (some 5) none []).1.success = false ∧
    (deduct_credits_for_article (initState []) "o1" none "ARTICLE_CREATE"
        (some "blog") (some 5) none []).2.ledger = (initState []).ledger ∧
    getCreditBalanceForOrganization
        (deduct_credits_for_article (initState []) "o1" none "ARTICLE_CREATE"
          (some "blog") (some 5) none []).2 "o1" =
      getCreditBalanceForOrganization (initState []) "o1" := by
  have h2 := nonneg_invariant.2 (initState []) "o1" none "ARTICLE_CREATE"
    (some "blog") 5 none [] (by decide)
  exact ⟨nonneg_invariant.1 [] [.grant "o1" none 50 none []] "o1",
    h2.1, h2.2.1, h2.2.2 "o1"⟩

/-- C6: a Debit whose `creditsRequired` is not positive (zero or negative,
or SQL `NULL` for the database function) is rejected immediately with the
invalid-amount error and the database state is returned untouched — no row
materialization, no balance mutation, no ledger write. -/
theorem debit_invalid_amount_rejected (st : DBState) (org : OrgId)
    (u : Option UserId) (pl : String) (a : String) (p : Option String)
    (cr : Int) (art : Option String) (m : List (String × String))
    (h : cr ≤ 0) :
    deductCreditsForArticleCreation st org u pl cr art m =
      (.error .creditsRequiredNotPositive, st) ∧
    deduct_credits_for_article st org u a p (some cr) art m =
      (⟨false, 0, 0, some (.invalidCredits (some cr))⟩, st) ∧
    deduct_credits_for_article st org u a p none art m =
      (⟨false, 0, 0, some (.invalidCredits none)⟩, st) := by
  refine ⟨?_, deduct_nonpos st org u a p cr art m h,
    deduct_missing st org u a p art m⟩
  unfold deductCreditsForArticleCreation
  rw [if_pos h]

/-- Witness for C6 at `creditsRequired = 0` against a nonempty state. -/
theorem debit_invalid_amount_rejected_witness :
    deductCreditsForArticleCreation (initState []) "o1" none "blog" 0 none [] =
      (.error .creditsRequiredNotPositive, initState []) ∧
    deduct_credits_for_article (initState []) "o1" none "ARTICLE_CREATE"
        (some "blog") (some 0) none [] =
      (⟨false, 0, 0, some (.invalidCredits (some 0))⟩, initState []) ∧
    deduct_credits_for_article (initState []) "o1" none "ARTICLE_CREATE"
        (some "blog") none none [] =
      (⟨false, 0, 0, some (.invalidCredits none)⟩, initState []) :=
  debit_invalid_amount_rejected (initState []) "o1" none "blog" "ARTICLE_CREATE"
    (some "blog") 0 none [] (by decide)

/-- C7: `checkSufficientCredits` returns the table price as `required`, the
current balance (0 when the organization has no balance row) as `balance`,
and `sufficient` true exactly when the balance covers the price; it fails
with the pricing-not-found error when no pricing row matches.  The function
is a pure read: it takes no state forward. -/
theorem checkSufficientCredits_spec (st : DBState) (org : OrgId)
    (actionType platform : String) :
    (∀ req, getCreditPricingByActionAndPlatform st actionType platform = some req →
      checkSufficientCredits st org actionType platform =
        .ok ⟨decide (req ≤ getCreditBalanceForOrganization st org),
             getCreditBalanceForOrganization st org, req⟩ ∧
      (decide (req ≤ getCreditBalanceForOrganization st org) = true ↔
        req ≤ getCreditBalanceForOrganization st org)) ∧
    (getCreditPricingByActionAndPlatform st actionType platform = none →
      checkSufficientCredits st org actionType platform =
        .error (.pricingNotFound actionType platform)) ∧
    (lookupBalance st org = none →
      getCreditBalanceForOrganization st org = 0) := by
  refine ⟨?_, ?_, ?_⟩
  · intro req h
    constructor
    · unfold checkSufficientCredits
      rw [h]
    · exact decide_eq_true_iff
  · intro h
    unfold checkSufficientCredits
    rw [h]
  · intro h
    unfold getCreditBalanceForOrganization getCreditBalanceByOrganizationId
    rw [h]
    rfl

/-- Witness for C7: the spec's example — balance 0, blog priced at 10,
yields insufficient with balance 0 and required 10; and a platform with no
pricing row fails. -/
theorem checkSufficientCredits_spec_witness :
    checkSufficientCredits (initState [(("ARTICLE_CREATE", "blog"), 10)])
        "o1" "ARTICLE_CREATE" "blog" =
      .ok ⟨false, 0, 10⟩ ∧
    checkSufficientCredits (initState [(("ARTICLE_CREATE", "blog"), 10)])
        "o1" "ARTICLE_CREATE" "reddit" =
      .error (.pricingNotFound "ARTICLE_CREATE" "reddit") ∧
    getCreditBalanceForOrganization
        (initState [(("ARTICLE_CREATE", "blog"), 10)]) "o1" = 0 := by
  have h := checkSufficientCredits_spec
    (initState [(("ARTICLE_CREATE", "blog"), 10)]) "o1" "ARTICLE_CREATE" "blog"
  have h2 := checkSufficientCredits_spec
    (initState [(("ARTICLE_CREATE", "blog"), 10)]) "o1" "ARTICLE_CREATE" "reddit"
  refine ⟨?_, h2.2.1 (by decide), h.2.2 (by decide)⟩
  have h3 := (h.1 10 (by decide)).1
  rw [h3]
  rfl

/-- C9: `getCreditBalanceForOrganization` returns 0 when the organization
has no `credit_balances` row and the row's balance when one exists; it is a
pure read (the state is not taken forward), so no row is created and no
stored state changes. -/
theorem getBalance_spec (st : DBState) (org : OrgId) :
    (getCreditBalanceByOrganizationId st org = none →
      getCreditBalanceForOrganization st org = 0) ∧
    (∀ b, getCreditBalanceByOrganizationId st org = some b →
      getCreditBalanceForOrganization st org = b) := by
  constructor
  · intro h
    unfold getCreditBalanceForOrganization
    rw [h]
    rfl
  · intro b h
    unfold getCreditBalanceForOrganization
    rw [h]
    rfl

/-- Witness for C9: a missing row reads as 0; an existing row with
balance 7 reads as 7. -/
theorem getBalance_spec_witness :
    getCreditBalanceForOrganization (initState []) "o1" = 0 ∧
    getCreditBalanceForOrganization ⟨[("o1", 7)], [], [], [], 0⟩ "o1" = 7 :=
  ⟨(getBalance_spec (initState []) "o1").1 (by decide),
   (getBalance_spec ⟨[("o1", 7)], [], [], [], 0⟩ "o1").2 7 (by decide)⟩

/-- C10: a Debit against an organization with no `credit_balances` row that
fails for insufficient credits still commits the zero-balance row created
by the first-touch materialization, while the observable balance stays 0
and no ledger entry is written. -/
theorem failed_debit_materializes_zero_row (st : DBState) (org : OrgId)
    (u : Option UserId) (a : String) (p : Option String) (cr : Int)
    (art : Option String) (m : List (String × String))
    (hnone : lookupBalance st org = none) (hcr : 0 < cr) :
    (deduct_credits_for_article st org u a p (some cr) art m).1 =
      ⟨false, 0, 0, some (.insufficient cr 0)⟩ ∧
    lookupBalance (deduct_credits_for_article st org u a p (some cr) art m).2 org =
      some 0 ∧
    getCreditBalanceForOrganization
        (deduct_credits_for_article st org u a p (some cr) art m).2 org =
      getCreditBalanceForOrganization st org ∧
    (deduct_credits_for_article st org u a p (some cr) art m).2.ledger =
      st.ledger := by
  have hbal : getCreditBalanceForOrganization st org = 0 := by
    unfold getCreditBalanceForOrganization getCreditBalanceByOrganizationId
    rw [hnone]
    rfl
  have hlt : getCreditBalanceForOrganization st org < cr := by omega
  rw [deduct_insufficient st org u a p cr art m hcr hlt]
  refine ⟨by rw [hbal], ?_, ?_, ensureBalanceRow_ledger st org⟩
  · rw [lookupBalance_ensure_self, hbal]
  · rw [getBal_ensure]

/-- Witness for C10: a debit of 10 against a fresh organization fails with
`required 10, available 0` yet leaves a zero-balance row behind. -/
theorem failed_debit_materializes_zero_row_witness :
    (deduct_credits_for_article (initState []) "o1" none "ARTICLE_CREATE"
        (some "blog") (some 10) none []).1 =
      ⟨false, 0, 0, some (.insufficient 10 0)⟩ ∧
    lookupBalance (deduct_credits_for_article (initState []) "o1" none
        "ARTICLE_CREATE" (some "blog") (some 10) none []).2 "o1" = some 0 ∧
    getCreditBalanceForOrganization
        (deduct_credits_for_article (initState []) "o1" none "ARTICLE_CREATE"
          (some "blog") (some 10) none []).2 "o1" =
      getCreditBalanceForOrganization (initState []) "o1" ∧
    (deduct_credits_for_article (initState []) "o1" none "ARTICLE_CREATE"
        (some "blog") (some 10) none []).2.ledger = (initState []).ledger :=
  failed_debit_materializes_zero_row (initState []) "o1" none "ARTICLE_CREATE"
    (some "blog") 10 none [] (by decide) (by decide)

/-- C3: a Debit with positive `creditsRequired` strictly above the current
balance throws the insufficient-credits error carrying the required amount
and the available balance, writes no ledger entry, and leaves every
organization's observable balance exactly as before the call. -/
theorem debit_insufficient_spec (st : DBState) (org : OrgId)
    (u : Option UserId) (pl : String) (cr : Int) (art : Option String)
    (m : List (String × String)) (hcr : 0 < cr)
    (hlt : getCreditBalanceForOrganization st org < cr) :
    (deductCreditsForArticleCreation st org u pl cr art m).1 =
      .error (.insufficient cr (getCreditBalanceForOrganization st org)) ∧
    (deductCreditsForArticleCreation st org u pl cr art m).2.ledger =
      st.ledger ∧
    ∀ o, getCreditBalanceForOrganization
        (deductCreditsForArticleCreation st org u pl cr art m).2 o =
      getCreditBalanceForOrganization st o := by
  unfold deductCreditsForArticleCreation deductCreditsForArticle
  rw [if_neg (not_le.mpr hcr),
    deduct_insufficient st org u "ARTICLE_CREATE" (some pl) cr art m hcr hlt]
  exact ⟨rfl, ensureBalanceRow_ledger st org, fun o => getBal_ensure st org o⟩

/-- Witness for C3: the spec's example — balance 5, debit of 10 fails with
`required 10, available 5`, leaving balance and ledger untouched. -/
theorem debit_insufficient_spec_witness :
    (deductCreditsForArticleCreation ⟨[("o1", 5)], [], [], [], 0⟩ "o1" none
        "blog" 10 none []).1 = .error (.insufficient 10 5) ∧
    (deductCreditsForArticleCreation ⟨[("o1", 5)], [], [], [], 0⟩ "o1" none
        "blog" 10 none []).2.ledger = (⟨[("o1", 5)], [], [], [], 0⟩ : DBState).ledger ∧
    getCreditBalanceForOrganization
        (deductCreditsForArticleCreation ⟨[("o1", 5)], [], [], [], 0⟩ "o1" none
          "blog" 10 none []).2 "o1" =
      getCreditBalanceForOrganization ⟨[("o1", 5)], [], [], [], 0⟩ "o1" := by
  have h := debit_insufficient_spec ⟨[("o1", 5)], [], [], [], 0⟩ "o1" none
    "blog" 10 none [] (by decide) (by decide)
  have hb : getCreditBalanceForOrganization
      (⟨[("o1", 5)], [], [], [], 0⟩ : DBState) "o1" = 5 := by decide
  refine ⟨?_, h.2.1, h.2.2 "o1"⟩
  rw [h.1, hb]

/-- C4: a Debit with positive `creditsRequired` at most the current balance
succeeds: it returns the new balance `current - required`, persists exactly
that balance for the organization, appends exactly one ledger entry with
`credits_delta = -creditsRequired`, `balance_after` equal to the new
balance, and the supplied provenance (user id, action type
`ARTICLE_CREATE`, platform, article id, metadata); balances of other
organizations are untouched. -/
theorem debit_success_spec (st : DBState) (org : OrgId) (u : Option UserId)
    (pl : String) (cr : Int) (art : Option String)
    (m : List (String × String)) (hcr : 0 < cr)
    (hge : cr ≤ getCreditBalanceForOrganization st org) :
    (deductCreditsForArticleCreation st org u pl cr art m).1 =
      .ok (getCreditBalanceForOrganization st org - cr) ∧
    lookupBalance (deductCreditsForArticleCreation st org u pl cr art m).2 org =
      some (getCreditBalanceForOrganization st org - cr) ∧
    (deductCreditsForArticleCreation st org u pl cr art m).2.ledger =
      st.ledger ++
        [{ id := st.nextId
           organization_id := org
           user_id := u
           article_id := art
           action_type := "ARTICLE_CREATE"
           platform := some pl
           credits_delta := -cr
           balance_after := getCreditBalanceForOrganization st org - cr
           metadata := .client m
           created_at := st.nextId }] ∧
    ∀ o, o ≠ org →
      getCreditBalanceForOrganization
          (deductCreditsForArticleCreation st org u pl cr art m).2 o =
        getCreditBalanceForOrganization st o := by
  unfold deductCreditsForArticleCreation deductCreditsForArticle
  rw [if_neg (not_le.mpr hcr),
    deduct_success st org u "ARTICLE_CREATE" (some pl) cr art m hcr hge]
  refine ⟨rfl, lookupBalance_debitSuccessState_self st org u _ _ cr art m,
    rfl, ?_⟩
  intro o ho
  exact (getBal_debitSuccessState st org u "ARTICLE_CREATE" (some pl) cr art m
    o).trans (if_neg ho)

/-- Witness for C4: the spec's example — balance 50, debit of 10 on
platform `blog` leaves 40 and appends `{credits_delta: -10,
balance_after: 40}` with the supplied provenance. -/
theorem debit_success_spec_witness :
    (deductCreditsForArticleCreation ⟨[("o1", 50)], [], [], [], 7⟩ "o1"
        (some "u1") "blog" 10 (some "a1") [("k", "v")]).1 = .ok 40 ∧
    lookupBalance (deductCreditsForArticleCreation ⟨[("o1", 50)], [], [], [], 7⟩
        "o1" (some "u1") "blog" 10 (some "a1") [("k", "v")]).2 "o1" = some 40 ∧
    (deductCreditsForArticleCreation ⟨[("o1", 50)], [], [], [], 7⟩ "o1"
        (some "u1") "blog" 10 (some "a1") [("k", "v")]).2.ledger =
      [⟨7, "o1", some "u1", some "a1", "ARTICLE_CREATE", some "blog",
        -10, 40, .client [("k", "v")], 7⟩] ∧
    getCreditBalanceForOrganization
        (deductCreditsForArticleCreation ⟨[("o1", 50)], [], [], [], 7⟩ "o1"
          (some "u1") "blog" 10 (some "a1") [("k", "v")]).2 "o2" =
      getCreditBalanceForOrganization ⟨[("o1", 50)], [], [], [], 7⟩ "o2" := by
  have h := debit_success_spec ⟨[("o1", 50)], [], [], [], 7⟩ "o1" (some "u1")
    "blog" 10 (some "a1") [("k", "v")] (by decide) (by decide)
  have hb : getCreditBalanceForOrganization
      (⟨[("o1", 50)], [], [], [], 7⟩ : DBState) "o1" = 50 := by decide
  refine ⟨?_, ?_, ?_, h.2.2.2 "o2" (by decide)⟩
  · rw [h.1, hb]; rfl
  · rw [h.2.1, hb]; rfl
  · rw [h.2.2.1, hb]; rfl

/-- Following the spec's words, for refutation of the claimed linkage
direction: a CreditGrant record "references" a ledger entry with id
`ledgerId` when that id occurs somewhere in the grant row's stored data —
as the row's own id, inside its reason text, or as a value of its metadata
key/value pairs. -/
def grantRecordReferencesLedgerId (g : CreditGrantRow) (ledgerId : Nat) : Prop :=
  g.id = ledgerId ∨ g.reason = some (toString ledgerId) ∨
    ∃ kv ∈ g.metadata, kv.2 = toString ledgerId

/-- C5 counterexample: granting 50 to a fresh organization persists the
grant row `{id 0, org o1, amount 50}` and the ledger row
`{id 1, delta +50, balance_after 50, metadata {reason, grant_id 0}}` — the
ledger entry references the grant (`grant_id = 0`), while the CreditGrant
record holds no reference to the ledger entry (id 1), contradicting the
claimed direction of linkage. -/
theorem grant_not_referencing_ledger_cex :
    (grantCreditsToOrganization (initState []) "o1" none 50 none []).1 =
      .ok 50 ∧
    (grantCreditsToOrganization (initState []) "o1" none 50 none []).2.grants =
      [⟨0, "o1", none, 50, none, [], 0⟩] ∧
    (grantCreditsToOrganization (initState []) "o1" none 50 none []).2.ledger =
      [⟨1, "o1", none, none, "CREDIT_GRANT", none, 50, 50,
        .grantInfo none (some 0), 1⟩] ∧
    ¬ grantRecordReferencesLedgerId ⟨0, "o1", none, 50, none, [], 0⟩ 1 := by
  refine ⟨rfl, rfl, rfl, ?_⟩
  simp [grantRecordReferencesLedgerId]

/-- C5 (amended): a Grant with positive amount never fails for balance
sufficiency — it increases the balance by exactly the amount, appends one
ledger entry with `credits_delta = +amount` and `balance_after` the new
balance, and persists one CreditGrant record (granted_by, reason,
metadata); the linkage is the reverse of the claim: the ledger entry's
metadata records the grant row's id (`grant_id`), while the grant record
does not reference the ledger entry.  A Grant with nonpositive amount
throws the invalid-amount error and changes nothing. -/
theorem grant_spec_amended (st : DBState) (org : OrgId) (gby : Option UserId)
    (amount : Int) (reason : Option String) (m : List (String × String))
    (hnn : 0 ≤ getCreditBalanceForOrganization st org) :
    (0 < amount →
      (grantCreditsToOrganization st org gby amount reason m).1 =
        .ok (getCreditBalanceForOrganization st org + amount) ∧
      lookupBalance (grantCreditsToOrganization st org gby amount reason m).2 org =
        some (getCreditBalanceForOrganization st org + amount) ∧
      (grantCreditsToOrganization st org gby amount reason m).2.ledger =
        st.ledger ++
          [{ id := st.nextId + 1
             organization_id := org
             user_id := gby
             article_id := none
             action_type := "CREDIT_GRANT"
             platform := none
             credits_delta := amount
             balance_after := getCreditBalanceForOrganization st org + amount
             metadata := .grantInfo reason (some st.nextId)
             created_at := st.nextId + 1 }] ∧
      (grantCreditsToOrganization st org gby amount reason m).2.grants =
        st.grants ++
          [{ id := st.nextId
             organization_id := org
             granted_by_user_id := gby
             credits_amount := amount
             reason := reason
             metadata := m
             created_at := st.nextId }]) ∧
    (amount ≤ 0 →
      grantCreditsToOrganization st org gby amount reason m =
        (.error .creditsAmountNotPositive, st)) := by
  constructor
  · intro hpos
    have hnew : 0 ≤ getCreditBalanceForOrganization st org + amount := by omega
    unfold grantCreditsToOrganization grantCredits
    rw [if_neg (not_le.mpr hpos),
      grant_success st org gby amount reason m hnew hpos]
    exact ⟨rfl, lookupBalance_grantSuccessState_self st org gby amount reason m,
      rfl, rfl⟩
  · intro hle
    unfold grantCreditsToOrganization
    rw [if_pos hle]

/-- Witness for C5 (amended): the spec's example — balance 0, grant of 50
yields balance 50; a grant of 0 is rejected with the state unchanged. -/
theorem grant_spec_amended_witness :
    (grantCreditsToOrganization (initState []) "o1" none 50 none []).1 =
      .ok 50 ∧
    lookupBalance (grantCreditsToOrganization (initState []) "o1" none 50
        none []).2 "o1" = some 50 ∧
    grantCreditsToOrganization (initState []) "o1" none 0 none [] =
      (.error .creditsAmountNotPositive, initState []) := by
  have h := grant_spec_amended (initState []) "o1" none 50 none [] (by decide)
  have h0 := grant_spec_amended (initState []) "o1" none 0 none [] (by decide)
  have h1 := (h.1 (by decide)).1
  have h2 := (h.1 (by decide)).2.1
  have hb : getCreditBalanceForOrganization (initState []) "o1" = 0 := by decide
  rw [hb] at h1 h2
  norm_num at h1 h2
  exact ⟨h1, h2, h0.2 (by decide)⟩

/-- C8 counterexample: a `ListLedger` call with `pageSize = 101` is
rejected with the page-size error; nothing is clamped to the 1–100 bound
(clamping would have produced a successful result). -/
theorem listLedger_not_clamped_cex :
    getCreditLedgerForOrganization (initState [])
        ⟨"o1", none, none, none, none, some 1, some 101⟩ =
      .error .pageSizeOutOfRange := rfl

/-- C8 (amended): `page < 1` is rejected with the page error and `pageSize`
outside 1–100 is rejected with the page-size error (not clamped); every
in-range call succeeds and returns entries ordered by creation time
descending, at most `pageSize` of them, all drawn from the matching ledger
rows, echoing `page` and `pageSize`, with `total` the number of all
matching entries and `totalPages` the ceiling of `total / pageSize`. -/
theorem listLedger_spec (st : DBState) (f : CreditLedgerFilters) :
    (f.page.getD 1 < 1 →
      getCreditLedgerForOrganization st f = .error .pageOutOfRange) ∧
    (1 ≤ f.page.getD 1 →
      (f.pageSize.getD 50 < 1 ∨ 100 < f.pageSize.getD 50) →
      getCreditLedgerForOrganization st f = .error .pageSizeOutOfRange) ∧
    (1 ≤ f.page.getD 1 → 1 ≤ f.pageSize.getD 50 → f.pageSize.getD 50 ≤ 100 →
      (getCreditLedgerForOrganization st f).isOk = true ∧
      ∀ pl, getCreditLedgerForOrganization st f = .ok pl →
        pl.page = f.page.getD 1 ∧
        pl.pageSize = f.pageSize.getD 50 ∧
        pl.total = (st.ledger.filter (entryMatches f.organizationId
          f.startDate f.endDate f.platform f.actionType)).length ∧
        pl.totalPages = pl.total ⌈/⌉ pl.pageSize ∧
        pl.entries.length ≤ pl.pageSize ∧
        pl.entries.Pairwise (fun a b => b.created_at ≤ a.created_at) ∧
        ∀ e ∈ pl.entries, e ∈ st.ledger ∧
          entryMatches f.organizationId f.startDate f.endDate f.platform
            f.actionType e = true) := by
  refine ⟨?_, ?_, ?_⟩
  · intro h
    unfold getCreditLedgerForOrganization
    rw [if_pos h]
  · intro hp hor
    unfold getCreditLedgerForOrganization
    rw [if_neg (by omega)]
    rw [if_pos (by rcases hor with h | h <;> simp [h])]
  · intro hp hs1 hs2
    have hok : getCreditLedgerForOrganization st f =
        .ok ⟨(getCreditLedgerEntries st f.organizationId f.startDate f.endDate
                f.platform f.actionType (f.page.getD 1) (f.pageSize.getD 50)).1,
             (getCreditLedgerEntries st f.organizationId f.startDate f.endDate
                f.platform f.actionType (f.page.getD 1) (f.pageSize.getD 50)).2,
             f.page.getD 1, f.pageSize.getD 50,
             ((getCreditLedgerEntries st f.organizationId f.startDate f.endDate
                f.platform f.actionType (f.page.getD 1) (f.pageSize.getD 50)).2 +
                f.pageSize.getD 50 - 1) / f.pageSize.getD 50⟩ := by
      unfold getCreditLedgerForOrganization
      rw [if_neg (by omega)]
      rw [if_neg (by simp; omega)]
    refine ⟨by rw [hok]; rfl, ?_⟩
    intro pl hpl
    rw [hok] at hpl
    obtain rfl := (Except.ok.inj hpl).symm
    refine ⟨rfl, rfl, rfl, ?_, ?_, ?_, ?_⟩
    · exact (Nat.ceilDiv_eq_add_pred_div _ _).symm
    · exact List.length_take_le _ _
    · exact List.Pairwise.sublist
        ((List.take_sublist _ _).trans (List.drop_sublist _ _))
        (sorted_sortDescByCreated _)
    · intro e he
      have h1 : e ∈ sortDescByCreated (st.ledger.filter (entryMatches
          f.organizationId f.startDate f.endDate f.platform f.actionType)) :=
        ((List.take_sublist _ _).trans (List.drop_sublist _ _)).subset he
      have h2 := (perm_sortDescByCreated _).subset h1
      exact ⟨(List.mem_filter.mp h2).1, (List.mem_filter.mp h2).2⟩

/-- One of the ledger rows used in the C8 witness state. -/
def exampleEntry (i : Nat) : LedgerEntry :=
  ⟨i, "o1", none, none, "CREDIT_GRANT", none, 1, Int.ofNat i, .client [], i⟩

/-- A state with five ledger rows for one organization, matching the
spec's pagination example. -/
def exampleLedgerState : DBState :=
  ⟨[("o1", 5)],
   [exampleEntry 0, exampleEntry 1, exampleEntry 2, exampleEntry 3,
    exampleEntry 4], [], [], 5⟩

/-- Witness for C8 (amended): against 5 entries, `page = 1, pageSize = 2`
yields the two most recent entries, `total = 5`, `totalPages = 3`; and
`page = 0` is rejected. -/
theorem listLedger_spec_witness :
    getCreditLedgerForOrganization exampleLedgerState
        ⟨"o1", none, none, none, none, some 1, some 2⟩ =
      .ok ⟨[exampleEntry 4, exampleEntry 3], 5, 1, 2, 3⟩ ∧
    ([exampleEntry 4, exampleEntry 3] : List LedgerEntry).length ≤ 2 ∧
    (3 : Nat) = 5 ⌈/⌉ 2 ∧
    ([exampleEntry 4, exampleEntry 3] : List LedgerEntry).Pairwise
      (fun a b => b.created_at ≤ a.created_at) ∧
    getCreditLedgerForOrganization exampleLedgerState
        ⟨"o1", none, none, none, none, some 0, some 2⟩ =
      .error .pageOutOfRange := by
  have h := listLedger_spec exampleLedgerState
    ⟨"o1", none, none, none, none, some 1, some 2⟩
  have h0 := listLedger_spec exampleLedgerState
    ⟨"o1", none, none, none, none, some 0, some 2⟩
  have hok : getCreditLedgerForOrganization exampleLedgerState
      ⟨"o1", none, none, none, none, some 1, some 2⟩ =
      .ok ⟨[exampleEntry 4, exampleEntry 3], 5, 1, 2, 3⟩ := rfl
  have hfacts := (h.2.2 (by decide) (by decide) (by decide)).2
    ⟨[exampleEntry 4, exampleEntry 3], 5, 1, 2, 3⟩ hok
  exact ⟨hok, hfacts.2.2.2.2.1, hfacts.2.2.2.1, hfacts.2.2.2.2.2.1,
    h0.1 (by decide)⟩

end Steakhouse
